import Mathlib

/-! Admission validation of `IBMVPCCluster`.

A shallow embedding of `internal/webhooks/ibmvpccluster.go` and a verification of the
statements its specification makes about it.

Go pointers that may be nil are `Option`s, Go slices are `List`s (the validator reads a
slice only through `len` and `range`, so a nil slice and a zero-length slice are both
`[]`), and the `(admission.Warnings, error)` pair is a `Warnings × Option APIError`.
-/

set_option autoImplicit false

namespace Webhooks

/-! ## The field-error vocabulary used by the validator -/

/-- One step of a field path: a named child or a subscript. -/
inductive PathElem where
  | name (s : String)
  | index (i : Nat)
  deriving DecidableEq, Repr

/-- A field path as the validator builds it with `NewPath`, `Child` and `Index`: the
steps from the root downwards. -/
structure Path where
  elems : List PathElem
  deriving DecidableEq, Repr

/-- The library call `field.NewPath(name)`: a root path with the given name. -/
def NewPath (name : String) : Path := ⟨[PathElem.name name]⟩

/-- The library call `p.Child(name)`: the path of the named child of `p`. -/
def Path.Child (p : Path) (name : String) : Path := ⟨p.elems ++ [PathElem.name name]⟩

/-- The library call `p.Index(i)`: the path of the `i`-th element of `p`. -/
def Path.Index (p : Path) (i : Nat) : Path := ⟨p.elems ++ [PathElem.index i]⟩

/-- The two kinds of field error the validator emits. -/
inductive ErrorType where
  | ErrorTypeRequired
  | ErrorTypeInvalid
  deriving DecidableEq, Repr

/-- A field error: kind, path of the offending field, offending value and message. -/
structure Error where
  Type_ : ErrorType
  Field : Path
  BadValue : String
  Detail : String
  deriving DecidableEq, Repr

/-- The accumulated list of field errors. -/
abbrev ErrorList := List Error

/-- The library call `field.Required(path, detail)`: a Required error with an empty
bad value. -/
def Required (field : Path) (detail : String) : Error :=
  { Type_ := ErrorType.ErrorTypeRequired, Field := field, BadValue := "", Detail := detail }

/-- The library call `field.Invalid(path, value, detail)`. -/
def Invalid (field : Path) (value : String) (detail : String) : Error :=
  { Type_ := ErrorType.ErrorTypeInvalid, Field := field, BadValue := value, Detail := detail }

/-- The library type `schema.GroupKind`. -/
structure GroupKind where
  Group : String
  Kind : String
  deriving DecidableEq, Repr

/-- The API status errors the webhook returns: the aggregate built by
`apierrors.NewInvalid(qualifiedKind, name, errs)`, which carries the whole error list it
is given, and the one built by `apierrors.NewBadRequest(reason)`. -/
inductive APIError where
  | NewInvalid (qualifiedKind : GroupKind) (name : String) (errs : ErrorList)
  | NewBadRequest (reason : String)
  deriving DecidableEq, Repr

/-- The library type `admission.Warnings`: a list of messages, nil when there is none. -/
abbrev Warnings := List String

/-! ## The cluster resource (the fields of `api/v1beta2` the validator reads) -/

/-- A subnet: `ID` and `Zone` are optional strings. -/
structure Subnet where
  ID : Option String
  Zone : Option String
  deriving DecidableEq, Repr

/-- A load-balancer descriptor; the validator never reads its fields. -/
structure VPCLoadBalancerSpec where
  Name : String
  ID : Option String
  Public : Option Bool
  deriving DecidableEq, Repr

/-- The network block of a cluster. -/
structure VPCNetworkSpec where
  ControlPlaneSubnets : List Subnet
  LoadBalancers : List VPCLoadBalancerSpec
  WorkerSubnets : List Subnet
  deriving DecidableEq, Repr

/-- The control-plane endpoint. -/
structure APIEndpoint where
  Host : String
  Port : Int
  deriving DecidableEq, Repr

/-- The cluster spec. -/
structure IBMVPCClusterSpec where
  ControlPlaneEndpoint : APIEndpoint
  ControlPlaneLoadBalancer : Option VPCLoadBalancerSpec
  Network : Option VPCNetworkSpec
  deriving DecidableEq, Repr

/-- The cluster object: its name and its spec. -/
structure IBMVPCCluster where
  Name : String
  Spec : IBMVPCClusterSpec
  deriving DecidableEq, Repr

/-! ## The validator -/

/-- The Go test `p == nil || *p == ""` on an optional string. -/
def nilOrEmpty (p : Option String) : Bool :=
  match p with
  | none => true
  | some v => v == ""

/-- The function `validateIBMVPCClusterControlPlane`: the reachability rule. -/
def validateIBMVPCClusterControlPlane (vpcCluster : IBMVPCCluster) : Option Error :=
  if vpcCluster.Spec.ControlPlaneEndpoint.Host == ""
      && vpcCluster.Spec.ControlPlaneLoadBalancer.isNone then
    some (Invalid (NewPath "") ""
      "One of - ControlPlaneEndpoint or ControlPlaneLoadBalancer must be specified")
  else
    none

/-- The loop over `network.ControlPlaneSubnets`, from index `i` on, appending to
`allErrs`. -/
def controlPlaneSubnetsLoop : List Subnet → Nat → ErrorList → ErrorList
  | [], _, allErrs => allErrs
  | subnet :: rest, i, allErrs =>
    if nilOrEmpty subnet.ID && nilOrEmpty subnet.Zone then
      controlPlaneSubnetsLoop rest (i + 1)
        (allErrs ++ [Required
          ((((NewPath "spec").Child "network").Child "controlPlaneSubnets").Index i
            |>.Child "zone")
          "Zone is required for each control plane subnet if ID is not provided"])
    else
      controlPlaneSubnetsLoop rest (i + 1) allErrs

/-- The loop over `network.WorkerSubnets`, from index `i` on, appending to `allErrs`. -/
def workerSubnetsLoop : List Subnet → Nat → ErrorList → ErrorList
  | [], _, allErrs => allErrs
  | subnet :: rest, i, allErrs =>
    if nilOrEmpty subnet.ID && nilOrEmpty subnet.Zone then
      workerSubnetsLoop rest (i + 1)
        (allErrs ++ [Required
          ((((NewPath "spec").Child "network").Child "workerSubnets").Index i
            |>.Child "zone")
          "Zone is required for each worker subnet if ID is not provided"])
    else
      workerSubnetsLoop rest (i + 1) allErrs

/-- The network part of `validateIBMVPCCluster`: what the body of `if network != nil`
appends to `allErrs`. -/
def validateNetwork (network : VPCNetworkSpec) (allErrs : ErrorList) : ErrorList :=
  let allErrs :=
    if network.LoadBalancers.length == 0 then
      allErrs ++ [Required (((NewPath "spec").Child "network").Child "loadBalancers")
        "At least one load balancer must be specified when network is set"]
    else allErrs
  let allErrs := controlPlaneSubnetsLoop network.ControlPlaneSubnets 0 allErrs
  workerSubnetsLoop network.WorkerSubnets 0 allErrs

/-- The value of `allErrs` when `validateIBMVPCCluster` reaches its final test. -/
def allErrs (vpcCluster : IBMVPCCluster) : ErrorList :=
  let allErrs : ErrorList :=
    match validateIBMVPCClusterControlPlane vpcCluster with
    | some err => [] ++ [err]
    | none => []
  match vpcCluster.Spec.Network with
  | some network => validateNetwork network allErrs
  | none => allErrs

/-- The function `validateIBMVPCCluster`: the accumulated list wrapped into the
returned pair. -/
def validateIBMVPCCluster (vpcCluster : IBMVPCCluster) : Warnings × Option APIError :=
  let allErrs := allErrs vpcCluster
  if allErrs.length == 0 then
    ([], none)
  else
    ([], some (APIError.NewInvalid
      { Group := "infrastructure.cluster.x-k8s.io", Kind := "IBMVPCCluster" }
      vpcCluster.Name allErrs))

/-- The function `ValidateIBMVPCCluster`, the exported entry point. -/
def ValidateIBMVPCCluster (vpcCluster : IBMVPCCluster) : Warnings × Option APIError :=
  validateIBMVPCCluster vpcCluster

/-! ## The webhook entry points -/

/-- A `runtime.Object` handed to the webhook: a (non-nil) `*infrav1.IBMVPCCluster`, or a
value of another type, given by the name `%T` prints for it. -/
inductive Object where
  | ibmvpcCluster (c : IBMVPCCluster)
  | other (goType : String)
  deriving DecidableEq, Repr

/-- The method `IBMVPCCluster.Default`: the object after the call and the returned error. -/
def Default (obj : Object) : Object × Option APIError :=
  (obj, none)

/-- The method `IBMVPCCluster.ValidateCreate`. -/
def ValidateCreate (obj : Object) : Warnings × Option APIError :=
  match obj with
  | Object.ibmvpcCluster objValue => validateIBMVPCCluster objValue
  | Object.other goType =>
    ([], some (APIError.NewBadRequest ("expected a IBMVPCCluster but got a " ++ goType)))

/-- The method `IBMVPCCluster.ValidateUpdate`. When the type assertion fails `objValue` is the nil
`*infrav1.IBMVPCCluster`, and `%T` of it prints that pointer type. -/
def ValidateUpdate (_oldObj : Object) (newObj : Object) : Warnings × Option APIError :=
  match newObj with
  | Object.ibmvpcCluster objValue => validateIBMVPCCluster objValue
  | Object.other _ =>
    ([], some (APIError.NewBadRequest
      ("expected a IBMVPCCluster but got a " ++ "*v1beta2.IBMVPCCluster")))

/-- The method `IBMVPCCluster.ValidateDelete`. -/
def ValidateDelete (_obj : Object) : Warnings × Option APIError :=
  ([], none)

/-! ## The vocabulary of the specification -/

/-- An optional string that is present with a non-empty value. -/
def NonEmpty (p : Option String) : Prop := ∃ v, p = some v ∧ v ≠ ""

/-- An optional string that is empty or absent. -/
def EmptyOrAbsent (p : Option String) : Prop := p = none ∨ p = some ""

/-- A subnet with both `id` and `zone` empty or absent. -/
def Offending (s : Subnet) : Prop := EmptyOrAbsent s.ID ∧ EmptyOrAbsent s.Zone

instance (p : Option String) : Decidable (EmptyOrAbsent p) := by
  unfold EmptyOrAbsent; infer_instance

instance (s : Subnet) : Decidable (Offending s) := by
  unfold Offending; infer_instance

/-- The control plane is reachable: the endpoint host is non-empty or a control-plane
load balancer is present. -/
def Reachable (c : IBMVPCCluster) : Prop :=
  c.Spec.ControlPlaneEndpoint.Host ≠ "" ∨ c.Spec.ControlPlaneLoadBalancer.isSome = true

instance (c : IBMVPCCluster) : Decidable (Reachable c) := by
  unfold Reachable; infer_instance

/-- The path `spec.network`. -/
def networkPath : Path := ⟨[PathElem.name "spec", PathElem.name "network"]⟩

/-- The path `spec.network.loadBalancers`. -/
def loadBalancersPath : Path :=
  ⟨[PathElem.name "spec", PathElem.name "network", PathElem.name "loadBalancers"]⟩

/-- The path `spec.network.<list>[i]`. -/
def subnetPath (list : String) (i : Nat) : Path :=
  ⟨[PathElem.name "spec", PathElem.name "network", PathElem.name list, PathElem.index i]⟩

/-- The path `spec.network.<list>[i].zone`. -/
def zonePath (list : String) (i : Nat) : Path :=
  ⟨[PathElem.name "spec", PathElem.name "network", PathElem.name list, PathElem.index i,
    PathElem.name "zone"]⟩

/-- The path `q` lies at or under the path `p`. -/
def Path.Under (q p : Path) : Prop := p.elems <+: q.elems

instance (q p : Path) : Decidable (q.Under p) := by
  unfold Path.Under; infer_instance

/-- The reachability error of rule 1. -/
def reachabilityError : Error :=
  { Type_ := ErrorType.ErrorTypeInvalid, Field := ⟨[PathElem.name ""]⟩, BadValue := "",
    Detail := "One of - ControlPlaneEndpoint or ControlPlaneLoadBalancer must be specified" }

/-- The load-balancer error of rule 3. -/
def loadBalancersError : Error :=
  { Type_ := ErrorType.ErrorTypeRequired, Field := loadBalancersPath, BadValue := "",
    Detail := "At least one load balancer must be specified when network is set" }

/-- The zone error of rule 4 for index `i`. -/
def controlPlaneZoneError (i : Nat) : Error :=
  { Type_ := ErrorType.ErrorTypeRequired, Field := zonePath "controlPlaneSubnets" i,
    BadValue := "",
    Detail := "Zone is required for each control plane subnet if ID is not provided" }

/-- The zone error of rule 5 for index `i`. -/
def workerZoneError (i : Nat) : Error :=
  { Type_ := ErrorType.ErrorTypeRequired, Field := zonePath "workerSubnets" i,
    BadValue := "",
    Detail := "Zone is required for each worker subnet if ID is not provided" }

/-- The indices of the offending elements of a subnet list, in ascending order. -/
def offendingIndices (l : List Subnet) : List Nat :=
  (List.range l.length).filter (fun i => (l[i]?).any (fun s => decide (Offending s)))

/-- The network errors the specification describes: none when the network block is
absent; otherwise the load-balancer error if rule 3 fires, the zone errors of the
offending control-plane subnets by ascending index, then those of the offending worker
subnets. -/
def specNetworkErrs : Option VPCNetworkSpec → ErrorList
  | none => []
  | some n =>
    (if n.LoadBalancers = [] then [loadBalancersError] else [])
    ++ (offendingIndices n.ControlPlaneSubnets).map controlPlaneZoneError
    ++ (offendingIndices n.WorkerSubnets).map workerZoneError

/-- The error list the specification describes: the reachability error if rule 1 fires,
then the network errors. -/
def specErrs (c : IBMVPCCluster) : ErrorList :=
  (if Reachable c then [] else [reachabilityError]) ++ specNetworkErrs c.Spec.Network

/-- Exchange the two "not provided" states of an optional string: absent becomes the
empty string, the empty string becomes absent, any other value stays. -/
def swapEmptyAbsent (p : Option String) : Option String :=
  match p with
  | none => some ""
  | some v => if v = "" then none else some v

/-- Apply `f` to the element at index `i` of a list (no change when `i` is out of
range). -/
def updateAt {α : Type} (f : α → α) : List α → Nat → List α
  | [], _ => []
  | a :: rest, 0 => f a :: rest
  | a :: rest, i + 1 => a :: updateAt f rest i

/-- Apply `f` to the control-plane subnet at index `i` of the network block, if any. -/
def mapControlPlaneSubnet (f : Subnet → Subnet) (i : Nat) (c : IBMVPCCluster) :
    IBMVPCCluster :=
  { c with Spec := { c.Spec with Network := c.Spec.Network.map (fun n =>
      { n with ControlPlaneSubnets := updateAt f n.ControlPlaneSubnets i }) } }

/-- Apply `f` to the worker subnet at index `i` of the network block, if any. -/
def mapWorkerSubnet (f : Subnet → Subnet) (i : Nat) (c : IBMVPCCluster) : IBMVPCCluster :=
  { c with Spec := { c.Spec with Network := c.Spec.Network.map (fun n =>
      { n with WorkerSubnets := updateAt f n.WorkerSubnets i }) } }

/-- Two network blocks agree on presence, on both subnet lists and on whether the
`loadBalancers` list is empty. -/
def AgreeOnNetwork : Option VPCNetworkSpec → Option VPCNetworkSpec → Prop
  | none, none => True
  | some n₁, some n₂ =>
    n₁.ControlPlaneSubnets = n₂.ControlPlaneSubnets ∧ n₁.WorkerSubnets = n₂.WorkerSubnets
      ∧ (n₁.LoadBalancers = [] ↔ n₂.LoadBalancers = [])
  | _, _ => False

/-! ## Sample clusters: the scenarios of the specification -/

/-- Scenario A: one load balancer, one control-plane subnet with neither id nor zone, no
host and no control-plane load balancer. -/
def scenarioA : IBMVPCCluster :=
  { Name := "test-cluster",
    Spec := {
      ControlPlaneEndpoint := { Host := "", Port := 0 },
      ControlPlaneLoadBalancer := none,
      Network := some {
        ControlPlaneSubnets := [{ ID := none, Zone := none }],
        LoadBalancers := [{ Name := "lb1", ID := none, Public := none }],
        WorkerSubnets := [] } } }

/-- Scenario B: no load balancer in the network block, both subnets identified, a
control-plane load balancer present. -/
def scenarioB : IBMVPCCluster :=
  { Name := "test-cluster",
    Spec := {
      ControlPlaneEndpoint := { Host := "", Port := 0 },
      ControlPlaneLoadBalancer := some { Name := "lb1", ID := none, Public := none },
      Network := some {
        ControlPlaneSubnets := [{ ID := some "id", Zone := none }],
        LoadBalancers := [],
        WorkerSubnets := [{ ID := some "id", Zone := none }] } } }

/-- Scenario C: a valid network block and a control-plane load balancer. -/
def scenarioC : IBMVPCCluster :=
  { Name := "test-cluster",
    Spec := {
      ControlPlaneEndpoint := { Host := "", Port := 0 },
      ControlPlaneLoadBalancer := some { Name := "lb1", ID := none, Public := none },
      Network := some {
        ControlPlaneSubnets := [{ ID := some "id", Zone := none }],
        LoadBalancers := [{ Name := "lb1", ID := none, Public := none }],
        WorkerSubnets := [{ ID := none, Zone := some "z" }] } } }

/-- Scenario D: no network block, a host. -/
def scenarioD : IBMVPCCluster :=
  { Name := "test-cluster",
    Spec := {
      ControlPlaneEndpoint := { Host := "host", Port := 0 },
      ControlPlaneLoadBalancer := none,
      Network := none } }

/-- A cluster with several violations at once: unreachable, no load balancer, offending
subnets at control-plane indices 0 and 2 and at worker index 1. -/
def manyViolations : IBMVPCCluster :=
  { Name := "c",
    Spec := {
      ControlPlaneEndpoint := { Host := "", Port := 0 },
      ControlPlaneLoadBalancer := none,
      Network := some {
        ControlPlaneSubnets :=
          [{ ID := none, Zone := some "" }, { ID := some "a", Zone := none },
           { ID := some "", Zone := none }],
        LoadBalancers := [],
        WorkerSubnets := [{ ID := none, Zone := some "z" }, { ID := none, Zone := none }] } } }

/-- A cluster with one load balancer in its network block and a control-plane load
balancer, and an offending control-plane subnet. -/
def oneLoadBalancer : IBMVPCCluster :=
  { Name := "c",
    Spec := {
      ControlPlaneEndpoint := { Host := "", Port := 0 },
      ControlPlaneLoadBalancer := some { Name := "lb1", ID := none, Public := none },
      Network := some {
        ControlPlaneSubnets := [{ ID := none, Zone := none }],
        LoadBalancers := [{ Name := "lb1", ID := none, Public := none }],
        WorkerSubnets := [] } } }

/-- The same cluster with other load balancers: a different control-plane load balancer
and two different entries in the network block. -/
def otherLoadBalancers : IBMVPCCluster :=
  { Name := "c",
    Spec := {
      ControlPlaneEndpoint := { Host := "", Port := 0 },
      ControlPlaneLoadBalancer := some { Name := "x", ID := some "id-x", Public := some true },
      Network := some {
        ControlPlaneSubnets := [{ ID := none, Zone := none }],
        LoadBalancers := [{ Name := "y", ID := some "id-y", Public := some false },
                          { Name := "", ID := none, Public := none }],
        WorkerSubnets := [] } } }

/-! ## The validator with run-time failures made explicit -/

/-- Dereference of a Go pointer, `*p` or a field read through `p`: fails (the program
panics) when the pointer is nil. -/
def deref {α : Type} (p : Option α) : Except String α :=
  match p with
  | some v => Except.ok v
  | none => Except.error "invalid memory address or nil pointer dereference"

/-- The element `s[i]` of a Go slice: fails (the program panics) when `i` is not below
the length. -/
def index {α : Type} (s : List α) (i : Nat) : Except String α :=
  match s[i]? with
  | some v => Except.ok v
  | none => Except.error "index out of range"

/-- The Go expression `p == nil || *p == ""`: the right operand, with its dereference, is
evaluated only when the left one is false. -/
def nilOrEmptyChecked (p : Option String) : Except String Bool :=
  if p.isNone then
    Except.ok true
  else do
    let v ← deref p
    pure (v == "")

/-- The loop test `(subnet.ID == nil || *subnet.ID == "") && (subnet.Zone == nil ||
*subnet.Zone == "")`: the right operand of `&&` is evaluated only when the left one is
true. -/
def subnetTestChecked (subnet : Subnet) : Except String Bool := do
  let left ← nilOrEmptyChecked subnet.ID
  if left then nilOrEmptyChecked subnet.Zone else pure false

/-- The loop `for i, subnet := range network.ControlPlaneSubnets`, as the index loop it
stands for: `remaining` iterations are left, the next reads `s[i]`. -/
def controlPlaneSubnetsLoopChecked (s : List Subnet) :
    Nat → Nat → ErrorList → Except String ErrorList
  | 0, _, allErrs => pure allErrs
  | remaining + 1, i, allErrs => do
    let subnet ← index s i
    let offending ← subnetTestChecked subnet
    if offending then
      controlPlaneSubnetsLoopChecked s remaining (i + 1)
        (allErrs ++ [Required
          ((((NewPath "spec").Child "network").Child "controlPlaneSubnets").Index i
            |>.Child "zone")
          "Zone is required for each control plane subnet if ID is not provided"])
    else
      controlPlaneSubnetsLoopChecked s remaining (i + 1) allErrs

/-- The loop `for i, subnet := range network.WorkerSubnets`, as the index loop it stands
for. -/
def workerSubnetsLoopChecked (s : List Subnet) :
    Nat → Nat → ErrorList → Except String ErrorList
  | 0, _, allErrs => pure allErrs
  | remaining + 1, i, allErrs => do
    let subnet ← index s i
    let offending ← subnetTestChecked subnet
    if offending then
      workerSubnetsLoopChecked s remaining (i + 1)
        (allErrs ++ [Required
          ((((NewPath "spec").Child "network").Child "workerSubnets").Index i
            |>.Child "zone")
          "Zone is required for each worker subnet if ID is not provided"])
    else
      workerSubnetsLoopChecked s remaining (i + 1) allErrs

/-- The function `validateIBMVPCCluster` on a non-nil cluster, every read through the
`network` pointer a dereference and every loop an index loop: the returned pair, or the
panic. -/
def validateIBMVPCClusterChecked (vpcCluster : IBMVPCCluster) :
    Except String (Warnings × Option APIError) := do
  let allErrs : ErrorList :=
    match validateIBMVPCClusterControlPlane vpcCluster with
    | some err => [] ++ [err]
    | none => []
  let network := vpcCluster.Spec.Network
  let allErrs ←
    if network.isSome then do
      let loadBalancers ← (fun n => n.LoadBalancers) <$> deref network
      let allErrs :=
        if loadBalancers.length == 0 then
          allErrs ++ [Required (((NewPath "spec").Child "network").Child "loadBalancers")
            "At least one load balancer must be specified when network is set"]
        else allErrs
      let controlPlaneSubnets ← (fun n => n.ControlPlaneSubnets) <$> deref network
      let allErrs ←
        controlPlaneSubnetsLoopChecked controlPlaneSubnets controlPlaneSubnets.length 0 allErrs
      let workerSubnets ← (fun n => n.WorkerSubnets) <$> deref network
      workerSubnetsLoopChecked workerSubnets workerSubnets.length 0 allErrs
    else
      pure allErrs
  if allErrs.length == 0 then
    pure ([], none)
  else
    pure ([], some (APIError.NewInvalid
      { Group := "infrastructure.cluster.x-k8s.io", Kind := "IBMVPCCluster" }
      vpcCluster.Name allErrs))

/-! ## The validator as a program on a store -/

/-- The memory a call of `validateIBMVPCCluster` works on: the cluster object its pointer
argument points to, and the cell of its local variable `allErrs`, which holds whatever an
earlier call left there until the declaration of the call resets it. -/
structure Store where
  object : IBMVPCCluster
  allErrs : ErrorList
  deriving DecidableEq, Repr

/-- The statement `allErrs = append(allErrs, err)`. -/
def Store.append (σ : Store) (err : Error) : Store :=
  { σ with allErrs := σ.allErrs ++ [err] }

/-- A read of a slice field through the pointer `network`, which points into the object
in the store (reached only under `network != nil`). -/
def Store.read {α : Type} (σ : Store) (field : VPCNetworkSpec → List α) : List α :=
  match σ.object.Spec.Network with
  | some network => field network
  | none => []

/-- The loop over `network.ControlPlaneSubnets` as a store transformer. -/
def controlPlaneSubnetsLoopStore : List Subnet → Nat → Store → Store
  | [], _, σ => σ
  | subnet :: rest, i, σ =>
    if nilOrEmpty subnet.ID && nilOrEmpty subnet.Zone then
      controlPlaneSubnetsLoopStore rest (i + 1)
        (σ.append (Required
          ((((NewPath "spec").Child "network").Child "controlPlaneSubnets").Index i
            |>.Child "zone")
          "Zone is required for each control plane subnet if ID is not provided"))
    else
      controlPlaneSubnetsLoopStore rest (i + 1) σ

/-- The loop over `network.WorkerSubnets` as a store transformer. -/
def workerSubnetsLoopStore : List Subnet → Nat → Store → Store
  | [], _, σ => σ
  | subnet :: rest, i, σ =>
    if nilOrEmpty subnet.ID && nilOrEmpty subnet.Zone then
      workerSubnetsLoopStore rest (i + 1)
        (σ.append (Required
          ((((NewPath "spec").Child "network").Child "workerSubnets").Index i
            |>.Child "zone")
          "Zone is required for each worker subnet if ID is not provided"))
    else
      workerSubnetsLoopStore rest (i + 1) σ

/-- The body of `if network != nil` as a store transformer: every read of a slice goes
through the pointer `network` into the store as it is at that statement. -/
def validateNetworkStore (σ : Store) : Store :=
  let σ : Store :=
    if (σ.read (fun network => network.LoadBalancers)).length == 0 then
      σ.append (Required (((NewPath "spec").Child "network").Child "loadBalancers")
        "At least one load balancer must be specified when network is set")
    else σ
  let σ : Store :=
    controlPlaneSubnetsLoopStore (σ.read (fun network => network.ControlPlaneSubnets)) 0 σ
  workerSubnetsLoopStore (σ.read (fun network => network.WorkerSubnets)) 0 σ

/-- The statements of `validateIBMVPCCluster` up to its final test, as a store
transformer: the declaration of `allErrs`, the reachability rule, the network block. -/
def accumulateStore (σ : Store) : Store :=
  let σ : Store := { σ with allErrs := [] }
  let σ : Store :=
    match validateIBMVPCClusterControlPlane σ.object with
    | some err => σ.append err
    | none => σ
  if σ.object.Spec.Network.isSome then validateNetworkStore σ else σ

/-- The function `validateIBMVPCCluster` run statement by statement on a store: the
returned pair and the store the call leaves. Every read of the cluster goes through the
store, and every assignment of the body is a store update. -/
def validateIBMVPCClusterStore (σ : Store) : (Warnings × Option APIError) × Store :=
  let σ : Store := accumulateStore σ
  if σ.allErrs.length == 0 then
    (([], none), σ)
  else
    (([], some (APIError.NewInvalid
      { Group := "infrastructure.cluster.x-k8s.io", Kind := "IBMVPCCluster" }
      σ.object.Name σ.allErrs)), σ)

/-- A store whose `allErrs` cell still holds an error of an earlier call. -/
def usedStore : Store :=
  { object := manyViolations, allErrs := [loadBalancersError] }

/-- A fresh store on the same object. -/
def freshStore : Store :=
  { object := manyViolations, allErrs := [] }

/-! ## More vocabulary of the specification -/

/-- A path with `workerSubnets` in place of every `controlPlaneSubnets` segment. -/
def toWorkerPath (p : Path) : Path :=
  ⟨p.elems.map (fun x =>
    if x = PathElem.name "controlPlaneSubnets" then PathElem.name "workerSubnets" else x)⟩

/-- An error with `workerSubnets` in place of `controlPlaneSubnets` in its path and
everything else kept. -/
def renameToWorker (e : Error) : Error :=
  { e with Field := toWorkerPath e.Field }

/-- An error with `workerSubnets` in place of `controlPlaneSubnets` in its path, the
worker-subnet message in place of the control-plane-subnet message, and everything else
kept. -/
def toWorkerError (e : Error) : Error :=
  { e with
    Field := toWorkerPath e.Field,
    Detail :=
      if e.Detail = "Zone is required for each control plane subnet if ID is not provided"
      then "Zone is required for each worker subnet if ID is not provided"
      else e.Detail }

/-- A cluster whose network block holds the given subnet lists. -/
def clusterWith (host : String) (lb : Option VPCLoadBalancerSpec)
    (lbs : List VPCLoadBalancerSpec) (controlPlane worker : List Subnet) : IBMVPCCluster :=
  { Name := "c",
    Spec := {
      ControlPlaneEndpoint := { Host := host, Port := 0 },
      ControlPlaneLoadBalancer := lb,
      Network := some {
        ControlPlaneSubnets := controlPlane, LoadBalancers := lbs, WorkerSubnets := worker } } }

/-! ## Lemmas on the loops -/

theorem nilOrEmpty_iff (p : Option String) : nilOrEmpty p = true ↔ EmptyOrAbsent p := by
  cases p with
  | none => simp [nilOrEmpty, EmptyOrAbsent]
  | some v => simp [nilOrEmpty, EmptyOrAbsent]

theorem loop_test_eq (s : Subnet) :
    (nilOrEmpty s.ID && nilOrEmpty s.Zone) = decide (Offending s) := by
  rw [Bool.eq_iff_iff]
  simp [Offending, nilOrEmpty_iff]

theorem offendingIndices_nil : offendingIndices [] = [] := rfl

theorem offendingIndices_cons (s : Subnet) (rest : List Subnet) :
    offendingIndices (s :: rest)
      = (if Offending s then [0] else []) ++ (offendingIndices rest).map (· + 1) := by
  unfold offendingIndices
  rw [List.length_cons, List.range_succ_eq_map, List.filter_cons, List.filter_map]
  by_cases h : Offending s
  · simp [h, Function.comp_def]
  · simp [h, Function.comp_def]

theorem controlPlaneSubnetsLoop_eq (l : List Subnet) (i : Nat) (acc : ErrorList) :
    controlPlaneSubnetsLoop l i acc
      = acc ++ (offendingIndices l).map (fun j => controlPlaneZoneError (i + j)) := by
  induction l generalizing i acc with
  | nil => simp [controlPlaneSubnetsLoop, offendingIndices_nil]
  | cons s rest ih =>
    rw [controlPlaneSubnetsLoop, loop_test_eq, offendingIndices_cons]
    by_cases h : Offending s
    · simp [h, ih, Function.comp_def, Nat.add_assoc, Nat.add_comm 1, controlPlaneZoneError,
        Required, NewPath, Path.Child, Path.Index, zonePath]
    · simp [h, ih, Function.comp_def, Nat.add_assoc, Nat.add_comm 1]

theorem workerSubnetsLoop_eq (l : List Subnet) (i : Nat) (acc : ErrorList) :
    workerSubnetsLoop l i acc
      = acc ++ (offendingIndices l).map (fun j => workerZoneError (i + j)) := by
  induction l generalizing i acc with
  | nil => simp [workerSubnetsLoop, offendingIndices_nil]
  | cons s rest ih =>
    rw [workerSubnetsLoop, loop_test_eq, offendingIndices_cons]
    by_cases h : Offending s
    · simp [h, ih, Function.comp_def, Nat.add_assoc, Nat.add_comm 1, workerZoneError,
        Required, NewPath, Path.Child, Path.Index, zonePath]
    · simp [h, ih, Function.comp_def, Nat.add_assoc, Nat.add_comm 1]

theorem validateNetwork_eq (n : VPCNetworkSpec) (acc : ErrorList) :
    validateNetwork n acc
      = acc ++ (if n.LoadBalancers = [] then [loadBalancersError] else [])
          ++ (offendingIndices n.ControlPlaneSubnets).map controlPlaneZoneError
          ++ (offendingIndices n.WorkerSubnets).map workerZoneError := by
  unfold validateNetwork
  simp only [controlPlaneSubnetsLoop_eq, workerSubnetsLoop_eq, Nat.zero_add]
  by_cases h : n.LoadBalancers = []
  · simp [h, loadBalancersError, Required, NewPath, Path.Child, loadBalancersPath]
  · have hl : n.LoadBalancers.length ≠ 0 := fun hl => h (List.length_eq_zero.mp hl)
    simp [h, hl]

theorem reachability_test_iff (c : IBMVPCCluster) :
    (c.Spec.ControlPlaneEndpoint.Host == ""
      && c.Spec.ControlPlaneLoadBalancer.isNone) = true ↔ ¬ Reachable c := by
  unfold Reachable
  cases c.Spec.ControlPlaneLoadBalancer <;> simp

theorem validateIBMVPCClusterControlPlane_eq (c : IBMVPCCluster) :
    validateIBMVPCClusterControlPlane c
      = if Reachable c then none else some reachabilityError := by
  unfold validateIBMVPCClusterControlPlane
  by_cases hr : Reachable c
  · rw [if_pos hr, if_neg (fun h => (reachability_test_iff c).mp h hr)]
  · rw [if_neg hr, if_pos ((reachability_test_iff c).mpr hr)]
    rfl

theorem specNetworkErrs_none : specNetworkErrs none = [] := rfl

theorem specNetworkErrs_some (n : VPCNetworkSpec) :
    specNetworkErrs (some n)
      = (if n.LoadBalancers = [] then [loadBalancersError] else [])
        ++ (offendingIndices n.ControlPlaneSubnets).map controlPlaneZoneError
        ++ (offendingIndices n.WorkerSubnets).map workerZoneError := rfl

theorem allErrs_eq_specErrs (c : IBMVPCCluster) : allErrs c = specErrs c := by
  unfold allErrs specErrs
  rw [validateIBMVPCClusterControlPlane_eq]
  cases hn : c.Spec.Network with
  | none => by_cases hr : Reachable c <;> simp [hr, specNetworkErrs]
  | some n =>
    simp only [validateNetwork_eq, specNetworkErrs]
    by_cases hr : Reachable c <;> simp [hr]

theorem mem_offendingIndices (l : List Subnet) (i : Nat) :
    i ∈ offendingIndices l ↔ ∃ s, l[i]? = some s ∧ Offending s := by
  unfold offendingIndices
  rw [List.mem_filter, List.mem_range]
  constructor
  · rintro ⟨_, h⟩
    cases hs : l[i]? with
    | none => simp [hs] at h
    | some s => exact ⟨s, rfl, by simpa [hs] using h⟩
  · rintro ⟨s, hs, ho⟩
    refine ⟨?_, by simp [hs, ho]⟩
    by_contra hlt
    rw [List.getElem?_eq_none (Nat.le_of_not_lt hlt)] at hs
    exact Option.noConfusion hs

theorem offendingIndices_pairwise (l : List Subnet) :
    (offendingIndices l).Pairwise (· < ·) :=
  (List.pairwise_lt_range l.length).sublist (List.filter_sublist _)

theorem offendingIndices_nodup (l : List Subnet) : (offendingIndices l).Nodup :=
  (List.nodup_range l.length).sublist (List.filter_sublist _)

theorem offendingIndices_eq_nil (l : List Subnet) :
    offendingIndices l = [] ↔ ∀ s ∈ l, ¬ Offending s := by
  induction l with
  | nil => simp [offendingIndices_nil]
  | cons s rest ih =>
    rw [offendingIndices_cons]
    by_cases h : Offending s
    · simp [h]
    · simp [h, ih]

theorem not_offending_iff (s : Subnet) :
    ¬ Offending s ↔ NonEmpty s.ID ∨ NonEmpty s.Zone := by
  obtain ⟨id, zone⟩ := s
  cases id <;> cases zone <;> simp [Offending, EmptyOrAbsent, NonEmpty]
  tauto

theorem filter_eq_of_nodup (l : List Nat) (i : Nat) (h : l.Nodup) :
    l.filter (fun j => decide (j = i)) = if i ∈ l then [i] else [] := by
  induction l with
  | nil => simp
  | cons a rest ih =>
    rw [List.nodup_cons] at h
    by_cases ha : a = i
    · subst ha
      have hnone : rest.filter (fun j => decide (j = a)) = [] := by
        rw [ih h.2, if_neg h.1]
      simp [List.filter_cons, hnone]
    · have hne : ¬ i = a := fun h => ha h.symm
      simp [List.filter_cons, ha, hne, ih h.2]

theorem error_eq_none_iff (c : IBMVPCCluster) :
    (validateIBMVPCCluster c).2 = none ↔ allErrs c = [] := by
  unfold validateIBMVPCCluster
  by_cases h : allErrs c = []
  · simp [h]
  · have hl : (allErrs c).length ≠ 0 := fun hl => h (List.length_eq_zero.mp hl)
    simp [h, hl]

theorem under_controlPlane_controlPlane (i j : Nat) :
    (controlPlaneZoneError j).Field.Under (subnetPath "controlPlaneSubnets" i) ↔ j = i := by
  simp [Path.Under, controlPlaneZoneError, zonePath, subnetPath, eq_comm]

theorem under_worker_worker (i j : Nat) :
    (workerZoneError j).Field.Under (subnetPath "workerSubnets" i) ↔ j = i := by
  simp [Path.Under, workerZoneError, zonePath, subnetPath, eq_comm]

theorem not_under_controlPlane_worker (i j : Nat) :
    ¬ (controlPlaneZoneError j).Field.Under (subnetPath "workerSubnets" i) := by
  simp [Path.Under, controlPlaneZoneError, zonePath, subnetPath]

theorem not_under_worker_controlPlane (i j : Nat) :
    ¬ (workerZoneError j).Field.Under (subnetPath "controlPlaneSubnets" i) := by
  simp [Path.Under, workerZoneError, zonePath, subnetPath]

theorem not_under_loadBalancers (list : String) (i : Nat) :
    ¬ loadBalancersError.Field.Under (subnetPath list i) := by
  simp [Path.Under, loadBalancersError, loadBalancersPath, subnetPath]

theorem not_under_reachability (list : String) (i : Nat) :
    ¬ reachabilityError.Field.Under (subnetPath list i) := by
  simp [Path.Under, reachabilityError, subnetPath]

theorem filter_under_head (c : IBMVPCCluster) (n : VPCNetworkSpec) (list : String)
    (i : Nat) :
    ((if Reachable c then [] else [reachabilityError])
        ++ (if n.LoadBalancers = [] then [loadBalancersError] else [])).filter
      (fun e => decide (e.Field.Under (subnetPath list i))) = [] := by
  rw [List.filter_eq_nil_iff]
  intro e he
  rw [List.mem_append] at he
  rcases he with he | he
  · by_cases hr : Reachable c
    · simp [hr] at he
    · simp only [hr, if_false, List.mem_singleton] at he
      subst he
      simpa using not_under_reachability list i
  · by_cases hl : n.LoadBalancers = []
    · simp only [hl, if_true, List.mem_singleton] at he
      subst he
      simpa using not_under_loadBalancers list i
    · simp [hl] at he

theorem filter_under_controlPlane (c : IBMVPCCluster) (n : VPCNetworkSpec)
    (hn : c.Spec.Network = some n) (i : Nat) :
    (specErrs c).filter
        (fun e => decide (e.Field.Under (subnetPath "controlPlaneSubnets" i)))
      = if i ∈ offendingIndices n.ControlPlaneSubnets then [controlPlaneZoneError i]
        else [] := by
  unfold specErrs
  rw [hn, specNetworkErrs_some, ← List.append_assoc, ← List.append_assoc, List.filter_append,
    List.filter_append, filter_under_head, List.filter_map, List.filter_map]
  have h1 : ((fun e => decide (e.Field.Under (subnetPath "controlPlaneSubnets" i)))
      ∘ controlPlaneZoneError) = fun j => decide (j = i) := by
    funext j
    simp [under_controlPlane_controlPlane]
  have h2 : ((fun e => decide (e.Field.Under (subnetPath "controlPlaneSubnets" i)))
      ∘ workerZoneError) = fun _ => false := by
    funext j
    simp [not_under_worker_controlPlane]
  rw [h1, h2, filter_eq_of_nodup _ _ (offendingIndices_nodup _)]
  by_cases hi : i ∈ offendingIndices n.ControlPlaneSubnets <;> simp [hi]

theorem filter_under_worker (c : IBMVPCCluster) (n : VPCNetworkSpec)
    (hn : c.Spec.Network = some n) (i : Nat) :
    (specErrs c).filter
        (fun e => decide (e.Field.Under (subnetPath "workerSubnets" i)))
      = if i ∈ offendingIndices n.WorkerSubnets then [workerZoneError i] else [] := by
  unfold specErrs
  rw [hn, specNetworkErrs_some, ← List.append_assoc, ← List.append_assoc, List.filter_append,
    List.filter_append, filter_under_head, List.filter_map, List.filter_map]
  have h1 : ((fun e => decide (e.Field.Under (subnetPath "workerSubnets" i)))
      ∘ workerZoneError) = fun j => decide (j = i) := by
    funext j
    simp [under_worker_worker]
  have h2 : ((fun e => decide (e.Field.Under (subnetPath "workerSubnets" i)))
      ∘ controlPlaneZoneError) = fun _ => false := by
    funext j
    simp [not_under_controlPlane_worker]
  rw [h1, h2, filter_eq_of_nodup _ _ (offendingIndices_nodup _)]
  by_cases hi : i ∈ offendingIndices n.WorkerSubnets <;> simp [hi]

theorem zonePath_under (list : String) (i : Nat) :
    (zonePath list i).Under (subnetPath list i) :=
  ⟨[PathElem.name "zone"], rfl⟩

theorem mem_offendingIndices_of_getElem (l : List Subnet) (i : Nat) (s : Subnet)
    (hs : l[i]? = some s) : i ∈ offendingIndices l ↔ Offending s := by
  rw [mem_offendingIndices]
  constructor
  · rintro ⟨s', hs', ho⟩
    rw [hs] at hs'
    cases hs'
    exact ho
  · intro ho
    exact ⟨s, hs, ho⟩

theorem emptyOrAbsent_swap (p : Option String) :
    EmptyOrAbsent (swapEmptyAbsent p) ↔ EmptyOrAbsent p := by
  cases p with
  | none => simp [swapEmptyAbsent, EmptyOrAbsent]
  | some v =>
    by_cases hv : v = ""
    · simp [swapEmptyAbsent, EmptyOrAbsent, hv]
    · simp [swapEmptyAbsent, EmptyOrAbsent, hv]

theorem offendingIndices_updateAt (f : Subnet → Subnet)
    (hf : ∀ s, Offending (f s) ↔ Offending s) (l : List Subnet) (i : Nat) :
    offendingIndices (updateAt f l i) = offendingIndices l := by
  induction l generalizing i with
  | nil => rfl
  | cons s rest ih =>
    cases i with
    | zero =>
      rw [updateAt, offendingIndices_cons, offendingIndices_cons]
      simp only [hf]
    | succ k =>
      rw [updateAt, offendingIndices_cons, offendingIndices_cons, ih]

theorem specErrs_congr (c₁ c₂ : IBMVPCCluster) (hr : Reachable c₁ ↔ Reachable c₂)
    (hnet : specNetworkErrs c₁.Spec.Network = specNetworkErrs c₂.Spec.Network) :
    specErrs c₁ = specErrs c₂ := by
  unfold specErrs
  rw [hnet]
  by_cases h : Reachable c₂
  · rw [if_pos h, if_pos (hr.mpr h)]
  · rw [if_neg h, if_neg (fun h1 => h (hr.mp h1))]

theorem allErrs_mapControlPlaneSubnet (f : Subnet → Subnet)
    (hf : ∀ s, Offending (f s) ↔ Offending s) (i : Nat) (c : IBMVPCCluster) :
    allErrs (mapControlPlaneSubnet f i c) = allErrs c := by
  rw [allErrs_eq_specErrs, allErrs_eq_specErrs]
  have hr : Reachable (mapControlPlaneSubnet f i c) ↔ Reachable c := Iff.rfl
  apply specErrs_congr _ _ hr
  cases hn : c.Spec.Network with
  | none => simp [mapControlPlaneSubnet, hn]
  | some n =>
    simp [mapControlPlaneSubnet, hn, specNetworkErrs_some, offendingIndices_updateAt f hf]

theorem allErrs_mapWorkerSubnet (f : Subnet → Subnet)
    (hf : ∀ s, Offending (f s) ↔ Offending s) (i : Nat) (c : IBMVPCCluster) :
    allErrs (mapWorkerSubnet f i c) = allErrs c := by
  rw [allErrs_eq_specErrs, allErrs_eq_specErrs]
  have hr : Reachable (mapWorkerSubnet f i c) ↔ Reachable c := Iff.rfl
  apply specErrs_congr _ _ hr
  cases hn : c.Spec.Network with
  | none => simp [mapWorkerSubnet, hn]
  | some n =>
    simp [mapWorkerSubnet, hn, specNetworkErrs_some, offendingIndices_updateAt f hf]

theorem nilOrEmptyChecked_eq (p : Option String) :
    nilOrEmptyChecked p = Except.ok (nilOrEmpty p) := by
  cases p <;> rfl

theorem subnetTestChecked_eq (s : Subnet) :
    subnetTestChecked s = Except.ok (nilOrEmpty s.ID && nilOrEmpty s.Zone) := by
  unfold subnetTestChecked
  rw [nilOrEmptyChecked_eq, nilOrEmptyChecked_eq]
  cases nilOrEmpty s.ID <;> rfl

theorem index_eq_of_drop {α : Type} (s : List α) (i : Nat) (a : α) (rest : List α)
    (h : s.drop i = a :: rest) : index s i = Except.ok a ∧ s.drop (i + 1) = rest := by
  have hlt : i < s.length := by
    by_contra hge
    rw [List.drop_of_length_le (Nat.le_of_not_lt hge)] at h
    exact List.noConfusion h
  rw [List.drop_eq_getElem_cons hlt] at h
  injection h with ha hrest
  refine ⟨?_, hrest⟩
  unfold index
  rw [List.getElem?_eq_getElem hlt, ha]

theorem controlPlaneSubnetsLoopChecked_eq (s : List Subnet) (remaining i : Nat)
    (acc : ErrorList) (h : (s.drop i).length = remaining) :
    controlPlaneSubnetsLoopChecked s remaining i acc
      = Except.ok (controlPlaneSubnetsLoop (s.drop i) i acc) := by
  induction remaining generalizing i acc with
  | zero =>
    rw [List.length_eq_zero.mp h]
    rfl
  | succ k ih =>
    cases hd : s.drop i with
    | nil => rw [hd] at h; exact absurd h (by simp)
    | cons a rest =>
      obtain ⟨hidx, hrest⟩ := index_eq_of_drop s i a rest hd
      have hlen : (s.drop (i + 1)).length = k := by
        rw [hrest]; rw [hd] at h; simpa using h
      rw [controlPlaneSubnetsLoopChecked, hidx, controlPlaneSubnetsLoop]
      simp only [bind, Except.bind, subnetTestChecked_eq]
      cases ht : (nilOrEmpty a.ID && nilOrEmpty a.Zone)
      · simpa [hrest] using ih (i + 1) acc hlen
      · simpa [hrest] using ih (i + 1) _ hlen

theorem workerSubnetsLoopChecked_eq (s : List Subnet) (remaining i : Nat)
    (acc : ErrorList) (h : (s.drop i).length = remaining) :
    workerSubnetsLoopChecked s remaining i acc
      = Except.ok (workerSubnetsLoop (s.drop i) i acc) := by
  induction remaining generalizing i acc with
  | zero =>
    rw [List.length_eq_zero.mp h]
    rfl
  | succ k ih =>
    cases hd : s.drop i with
    | nil => rw [hd] at h; exact absurd h (by simp)
    | cons a rest =>
      obtain ⟨hidx, hrest⟩ := index_eq_of_drop s i a rest hd
      have hlen : (s.drop (i + 1)).length = k := by
        rw [hrest]; rw [hd] at h; simpa using h
      rw [workerSubnetsLoopChecked, hidx, workerSubnetsLoop]
      simp only [bind, Except.bind, subnetTestChecked_eq]
      cases ht : (nilOrEmpty a.ID && nilOrEmpty a.Zone)
      · simpa [hrest] using ih (i + 1) acc hlen
      · simpa [hrest] using ih (i + 1) _ hlen

theorem controlPlaneSubnetsLoopChecked_full (s : List Subnet) (acc : ErrorList) :
    controlPlaneSubnetsLoopChecked s s.length 0 acc
      = Except.ok (controlPlaneSubnetsLoop s 0 acc) := by
  simpa using controlPlaneSubnetsLoopChecked_eq s s.length 0 acc (by simp)

theorem workerSubnetsLoopChecked_full (s : List Subnet) (acc : ErrorList) :
    workerSubnetsLoopChecked s s.length 0 acc
      = Except.ok (workerSubnetsLoop s 0 acc) := by
  simpa using workerSubnetsLoopChecked_eq s s.length 0 acc (by simp)

theorem validateIBMVPCClusterChecked_eq (c : IBMVPCCluster) :
    validateIBMVPCClusterChecked c = Except.ok (validateIBMVPCCluster c) := by
  unfold validateIBMVPCClusterChecked validateIBMVPCCluster allErrs
  cases hn : c.Spec.Network with
  | none =>
    simp only [Option.isSome_none, Bool.false_eq_true, if_false]
    split <;> simp_all [bind, Except.bind, pure, Except.pure]
  | some n =>
    simp only [Option.isSome_some, if_true, deref, validateNetwork, Functor.map, Except.map,
      bind, Except.bind, controlPlaneSubnetsLoopChecked_full, workerSubnetsLoopChecked_full]
    split <;> simp_all [pure, Except.pure] <;> split <;> rfl

theorem toWorkerError_controlPlaneZoneError (i : Nat) :
    toWorkerError (controlPlaneZoneError i) = workerZoneError i := by
  simp [toWorkerError, toWorkerPath, controlPlaneZoneError, workerZoneError, zonePath]

theorem toWorkerError_reachabilityError :
    toWorkerError reachabilityError = reachabilityError := by
  decide

theorem toWorkerError_loadBalancersError :
    toWorkerError loadBalancersError = loadBalancersError := by
  decide

theorem mem_specErrs_cases (c : IBMVPCCluster) (e : Error) (he : e ∈ specErrs c) :
    e = reachabilityError ∨ e = loadBalancersError
      ∨ (∃ i, e = controlPlaneZoneError i) ∨ (∃ i, e = workerZoneError i) := by
  unfold specErrs at he
  rw [List.mem_append] at he
  rcases he with he | he
  · by_cases hr : Reachable c
    · simp [hr] at he
    · simp only [hr, if_false, List.mem_singleton] at he
      exact Or.inl he
  · cases hn : c.Spec.Network with
    | none => simp [hn, specNetworkErrs_none] at he
    | some n =>
      rw [hn, specNetworkErrs_some, List.mem_append, List.mem_append] at he
      rcases he with (he | he) | he
      · by_cases hl : n.LoadBalancers = []
        · simp only [hl, if_true, List.mem_singleton] at he
          exact Or.inr (Or.inl he)
        · simp [hl] at he
      · obtain ⟨j, _, rfl⟩ := List.mem_map.mp he
        exact Or.inr (Or.inr (Or.inl ⟨j, rfl⟩))
      · obtain ⟨j, _, rfl⟩ := List.mem_map.mp he
        exact Or.inr (Or.inr (Or.inr ⟨j, rfl⟩))

theorem controlPlaneSubnetsLoopStore_eq (l : List Subnet) (i : Nat) (σ : Store) :
    controlPlaneSubnetsLoopStore l i σ
      = { object := σ.object, allErrs := controlPlaneSubnetsLoop l i σ.allErrs } := by
  induction l generalizing i σ with
  | nil => rfl
  | cons s rest ih =>
    rw [controlPlaneSubnetsLoopStore, controlPlaneSubnetsLoop]
    cases (nilOrEmpty s.ID && nilOrEmpty s.Zone)
    · simp only [Bool.false_eq_true, if_false]
      exact ih (i + 1) σ
    · simp only [if_true]
      exact ih (i + 1) _

theorem workerSubnetsLoopStore_eq (l : List Subnet) (i : Nat) (σ : Store) :
    workerSubnetsLoopStore l i σ
      = { object := σ.object, allErrs := workerSubnetsLoop l i σ.allErrs } := by
  induction l generalizing i σ with
  | nil => rfl
  | cons s rest ih =>
    rw [workerSubnetsLoopStore, workerSubnetsLoop]
    cases (nilOrEmpty s.ID && nilOrEmpty s.Zone)
    · simp only [Bool.false_eq_true, if_false]
      exact ih (i + 1) σ
    · simp only [if_true]
      exact ih (i + 1) _

theorem Store.read_of_network {α : Type} (σ : Store) (n : VPCNetworkSpec)
    (h : σ.object.Spec.Network = some n) (field : VPCNetworkSpec → List α) :
    σ.read field = field n := by
  unfold Store.read
  rw [h]

theorem validateNetworkStore_eq (σ : Store) (n : VPCNetworkSpec)
    (h : σ.object.Spec.Network = some n) :
    validateNetworkStore σ
      = { object := σ.object, allErrs := validateNetwork n σ.allErrs } := by
  unfold validateNetworkStore validateNetwork
  rw [Store.read_of_network σ n h]
  by_cases hl : n.LoadBalancers.length = 0
  · have h1 : ∀ e, (σ.append e).object.Spec.Network = some n := fun _ => h
    simp only [hl, beq_self_eq_true, if_true, controlPlaneSubnetsLoopStore_eq,
      workerSubnetsLoopStore_eq, Store.read_of_network _ n (h1 _),
      Store.read]
    simp [Store.append, h]
  · simp only [hl, beq_iff_eq, if_false, controlPlaneSubnetsLoopStore_eq,
      workerSubnetsLoopStore_eq, Store.read]
    simp [h]

theorem accumulateStore_eq (σ : Store) :
    accumulateStore σ = { object := σ.object, allErrs := allErrs σ.object } := by
  obtain ⟨c, old⟩ := σ
  unfold accumulateStore allErrs
  dsimp only
  cases hv : validateIBMVPCClusterControlPlane c with
  | none =>
    cases hn : c.Spec.Network with
    | none => simp [hn]
    | some n =>
      simp only [hn, Option.isSome_some, if_true]
      exact validateNetworkStore_eq { object := c, allErrs := [] } n hn
  | some err =>
    cases hn : c.Spec.Network with
    | none => simp [Store.append, hn]
    | some n =>
      have hs : (Store.append { object := c, allErrs := [] } err).object.Spec.Network.isSome
          = true := by
        show c.Spec.Network.isSome = true
        rw [hn]; rfl
      rw [if_pos hs]
      exact validateNetworkStore_eq (Store.append { object := c, allErrs := [] } err) n hn

theorem validateIBMVPCClusterStore_eq (σ : Store) :
    validateIBMVPCClusterStore σ
      = (validateIBMVPCCluster σ.object,
          { object := σ.object, allErrs := allErrs σ.object }) := by
  unfold validateIBMVPCClusterStore validateIBMVPCCluster
  rw [accumulateStore_eq]
  by_cases hl : (allErrs σ.object).length = 0 <;> simp [hl]

/-! ## The claims -/

/-- C1: `ValidateIBMVPCCluster` returns no error if and only if (a) the control-plane
endpoint host is non-empty or a control-plane load balancer is present, and (b) the
network block is absent, or its `loadBalancers` list is non-empty and every element of
`controlPlaneSubnets` and of `workerSubnets` has a non-empty id or a non-empty zone. -/
theorem C1_no_error_iff_admissible (c : IBMVPCCluster) :
    (ValidateIBMVPCCluster c).2 = none ↔
      (c.Spec.ControlPlaneEndpoint.Host ≠ "" ∨ c.Spec.ControlPlaneLoadBalancer.isSome = true)
      ∧ (c.Spec.Network = none
          ∨ ∃ n, c.Spec.Network = some n ∧ n.LoadBalancers ≠ []
              ∧ (∀ s ∈ n.ControlPlaneSubnets, NonEmpty s.ID ∨ NonEmpty s.Zone)
              ∧ (∀ s ∈ n.WorkerSubnets, NonEmpty s.ID ∨ NonEmpty s.Zone)) := by
  unfold ValidateIBMVPCCluster
  rw [error_eq_none_iff, allErrs_eq_specErrs]
  unfold specErrs specNetworkErrs
  have hr : Reachable c ↔ (c.Spec.ControlPlaneEndpoint.Host ≠ ""
      ∨ c.Spec.ControlPlaneLoadBalancer.isSome = true) := Iff.rfl
  rw [← hr]
  cases hn : c.Spec.Network with
  | none => by_cases h : Reachable c <;> simp [h]
  | some n =>
    simp only [← not_offending_iff, ← offendingIndices_eq_nil]
    by_cases h : Reachable c <;> by_cases hl : n.LoadBalancers = [] <;> simp [h, hl]

/-- C2: if the host is empty and the control-plane load balancer is absent, the error
list contains exactly one error of kind Invalid, it is the first entry, and its path is
the root path with the empty name (no child or index segment), whatever the network block
holds; otherwise the list contains no error of kind Invalid. -/
theorem C2_invalid_error_iff_unreachable (c : IBMVPCCluster) :
    (c.Spec.ControlPlaneEndpoint.Host = "" ∧ c.Spec.ControlPlaneLoadBalancer = none →
        (allErrs c).countP (fun e => decide (e.Type_ = ErrorType.ErrorTypeInvalid)) = 1
        ∧ ∃ e rest, allErrs c = e :: rest ∧ e.Type_ = ErrorType.ErrorTypeInvalid
            ∧ e.Field = NewPath "" ∧ e.Field.elems = [PathElem.name ""])
    ∧ (¬ (c.Spec.ControlPlaneEndpoint.Host = "" ∧ c.Spec.ControlPlaneLoadBalancer = none) →
        ∀ e ∈ allErrs c, e.Type_ ≠ ErrorType.ErrorTypeInvalid) := by
  have hnet : ∀ e ∈ specNetworkErrs c.Spec.Network,
      e.Type_ = ErrorType.ErrorTypeRequired := by
    intro e he
    cases hn : c.Spec.Network with
    | none => simp [hn, specNetworkErrs] at he
    | some n =>
      simp only [hn, specNetworkErrs, List.mem_append, List.mem_map] at he
      rcases he with (he | ⟨j, _, rfl⟩) | ⟨j, _, rfl⟩
      · by_cases hl : n.LoadBalancers = []
        · simp [hl] at he; subst he; rfl
        · simp [hl] at he
      · rfl
      · rfl
  have hcount : (specNetworkErrs c.Spec.Network).countP
      (fun e => decide (e.Type_ = ErrorType.ErrorTypeInvalid)) = 0 := by
    rw [List.countP_eq_zero]
    intro e he
    simp [hnet e he]
  have hiff : ¬ Reachable c
      ↔ (c.Spec.ControlPlaneEndpoint.Host = "" ∧ c.Spec.ControlPlaneLoadBalancer = none) := by
    unfold Reachable
    cases c.Spec.ControlPlaneLoadBalancer <;> simp
  rw [allErrs_eq_specErrs, ← hiff]
  unfold specErrs
  constructor
  · intro hr
    rw [if_neg hr]
    refine ⟨?_, reachabilityError, specNetworkErrs c.Spec.Network, rfl, rfl, rfl, rfl⟩
    rw [List.countP_append, hcount]
    rfl
  · intro hr e he
    rw [if_pos (not_not.mp hr), List.nil_append] at he
    rw [hnet e he]
    decide

/-- C2 at concrete inputs: Scenario A (unreachable) and Scenario D (reachable). -/
theorem C2_invalid_error_iff_unreachable_witness :
    ((allErrs scenarioA).countP (fun e => decide (e.Type_ = ErrorType.ErrorTypeInvalid)) = 1
      ∧ ∃ e rest, allErrs scenarioA = e :: rest ∧ e.Type_ = ErrorType.ErrorTypeInvalid
          ∧ e.Field = NewPath "" ∧ e.Field.elems = [PathElem.name ""])
    ∧ (∀ e ∈ allErrs scenarioD, e.Type_ ≠ ErrorType.ErrorTypeInvalid) :=
  ⟨(C2_invalid_error_iff_unreachable scenarioA).1 ⟨rfl, rfl⟩,
   (C2_invalid_error_iff_unreachable scenarioD).2 (by decide)⟩

/-- C3: when the network block is absent, no error of the list has a path at or under
`spec.network`; the list is empty when the host is non-empty or the control-plane load
balancer is present, and otherwise consists of the single reachability error. -/
theorem C3_network_absent (c : IBMVPCCluster) (hn : c.Spec.Network = none) :
    (∀ e ∈ allErrs c, ¬ e.Field.Under networkPath)
    ∧ allErrs c =
        if c.Spec.ControlPlaneEndpoint.Host ≠ "" ∨ c.Spec.ControlPlaneLoadBalancer.isSome = true
        then [] else [reachabilityError] := by
  have h : allErrs c = if Reachable c then [] else [reachabilityError] := by
    rw [allErrs_eq_specErrs]
    unfold specErrs
    rw [hn]
    simp [specNetworkErrs]
  refine ⟨?_, h⟩
  intro e he
  rw [h] at he
  by_cases hr : Reachable c
  · simp [hr] at he
  · simp only [hr, if_false, List.mem_singleton] at he
    subst he
    decide

/-- C3 at concrete inputs: Scenario D. -/
theorem C3_network_absent_witness :
    scenarioD.Spec.Network = none ∧ allErrs scenarioD = [] :=
  ⟨rfl, (C3_network_absent scenarioD rfl).2⟩

/-- C4: when the network block is present and its `loadBalancers` list is empty, the
errors at path `spec.network.loadBalancers` are exactly one error, of kind Required,
whatever the subnets hold; when the list has at least one element, no error of the list
is at that path. -/
theorem C4_load_balancer_rule (c : IBMVPCCluster) (n : VPCNetworkSpec)
    (hn : c.Spec.Network = some n) :
    (n.LoadBalancers = [] →
        ∃ e, (allErrs c).filter (fun e => decide (e.Field = loadBalancersPath)) = [e]
          ∧ e.Type_ = ErrorType.ErrorTypeRequired
          ∧ e.Field = ((NewPath "spec").Child "network").Child "loadBalancers")
    ∧ (n.LoadBalancers ≠ [] → ∀ e ∈ allErrs c, e.Field ≠ loadBalancersPath) := by
  have hcp : ∀ l : List Nat, (l.map controlPlaneZoneError).filter
      (fun e => decide (e.Field = loadBalancersPath)) = [] := by
    intro l
    simp [List.filter_eq_nil_iff, controlPlaneZoneError, zonePath, loadBalancersPath]
  have hw : ∀ l : List Nat, (l.map workerZoneError).filter
      (fun e => decide (e.Field = loadBalancersPath)) = [] := by
    intro l
    simp [List.filter_eq_nil_iff, workerZoneError, zonePath, loadBalancersPath]
  have hreach : (if Reachable c then [] else [reachabilityError]).filter
      (fun e => decide (e.Field = loadBalancersPath)) = [] := by
    by_cases hr : Reachable c
    · simp [hr]
    · simp [hr, reachabilityError, loadBalancersPath]
  rw [allErrs_eq_specErrs]
  unfold specErrs
  rw [hn, specNetworkErrs_some]
  constructor
  · intro hl
    refine ⟨loadBalancersError, ?_, rfl, rfl⟩
    rw [List.filter_append, List.filter_append, List.filter_append, hreach, hcp, hw, if_pos hl]
    simp [loadBalancersError]
  · intro hl e he
    rw [if_neg hl] at he
    intro hf
    have hmem : e ∈ List.filter (fun e => decide (e.Field = loadBalancersPath)) _ :=
      List.mem_filter.mpr ⟨he, decide_eq_true hf⟩
    rw [List.filter_append, List.filter_append, List.filter_append, hreach, hcp, hw] at hmem
    simp at hmem

/-- C4 at concrete inputs: Scenario B (no load balancer) and Scenario C (one). -/
theorem C4_load_balancer_rule_witness :
    (∃ e, (allErrs scenarioB).filter (fun e => decide (e.Field = loadBalancersPath)) = [e]
        ∧ e.Type_ = ErrorType.ErrorTypeRequired
        ∧ e.Field = ((NewPath "spec").Child "network").Child "loadBalancers")
    ∧ (∀ e ∈ allErrs scenarioC, e.Field ≠ loadBalancersPath) :=
  ⟨(C4_load_balancer_rule scenarioB _ rfl).1 rfl,
   (C4_load_balancer_rule scenarioC _ rfl).2 (by decide)⟩

/-- C5: with a network block, for the control-plane subnet `s` at index `i`
(respectively the worker subnet), the error list contains a Required error at path
`spec.network.controlPlaneSubnets[i].zone` (respectively `workerSubnets`) if and only if
`s` has both id and zone empty or absent; the errors at or under the path of index `i`
are exactly that one error when `s` offends, and none when `s` has a non-empty id or a
non-empty zone. -/
theorem C5_subnet_zone_rule (c : IBMVPCCluster) (n : VPCNetworkSpec) (i : Nat) (s : Subnet)
    (hn : c.Spec.Network = some n) :
    (n.ControlPlaneSubnets[i]? = some s →
      ((∃ e ∈ allErrs c, e.Type_ = ErrorType.ErrorTypeRequired
          ∧ e.Field = zonePath "controlPlaneSubnets" i) ↔ Offending s)
      ∧ (allErrs c).filter
            (fun e => decide (e.Field.Under (subnetPath "controlPlaneSubnets" i)))
          = (if Offending s then [controlPlaneZoneError i] else [])
      ∧ (NonEmpty s.ID ∨ NonEmpty s.Zone →
          ∀ e ∈ allErrs c, ¬ e.Field.Under (subnetPath "controlPlaneSubnets" i)))
    ∧ (n.WorkerSubnets[i]? = some s →
      ((∃ e ∈ allErrs c, e.Type_ = ErrorType.ErrorTypeRequired
          ∧ e.Field = zonePath "workerSubnets" i) ↔ Offending s)
      ∧ (allErrs c).filter
            (fun e => decide (e.Field.Under (subnetPath "workerSubnets" i)))
          = (if Offending s then [workerZoneError i] else [])
      ∧ (NonEmpty s.ID ∨ NonEmpty s.Zone →
          ∀ e ∈ allErrs c, ¬ e.Field.Under (subnetPath "workerSubnets" i))) := by
  rw [allErrs_eq_specErrs]
  constructor
  · intro hs
    have hf := filter_under_controlPlane c n hn i
    simp only [mem_offendingIndices_of_getElem _ i s hs] at hf
    refine ⟨⟨?_, ?_⟩, hf, ?_⟩
    · rintro ⟨e, he, _, hp⟩
      by_contra ho
      have hmem : e ∈ List.filter
          (fun e => decide (e.Field.Under (subnetPath "controlPlaneSubnets" i)))
          (specErrs c) :=
        List.mem_filter.mpr ⟨he, decide_eq_true (by rw [hp]; exact zonePath_under _ i)⟩
      rw [hf, if_neg ho] at hmem
      exact List.not_mem_nil _ hmem
    · intro ho
      have hmem : controlPlaneZoneError i ∈ List.filter
          (fun e => decide (e.Field.Under (subnetPath "controlPlaneSubnets" i)))
          (specErrs c) := by
        rw [hf, if_pos ho]
        exact List.mem_singleton_self _
      exact ⟨_, (List.mem_filter.mp hmem).1, rfl, rfl⟩
    · intro hne e he hu
      have hmem : e ∈ List.filter
          (fun e => decide (e.Field.Under (subnetPath "controlPlaneSubnets" i)))
          (specErrs c) :=
        List.mem_filter.mpr ⟨he, decide_eq_true hu⟩
      rw [hf, if_neg ((not_offending_iff s).mpr hne)] at hmem
      exact List.not_mem_nil _ hmem
  · intro hs
    have hf := filter_under_worker c n hn i
    simp only [mem_offendingIndices_of_getElem _ i s hs] at hf
    refine ⟨⟨?_, ?_⟩, hf, ?_⟩
    · rintro ⟨e, he, _, hp⟩
      by_contra ho
      have hmem : e ∈ List.filter
          (fun e => decide (e.Field.Under (subnetPath "workerSubnets" i)))
          (specErrs c) :=
        List.mem_filter.mpr ⟨he, decide_eq_true (by rw [hp]; exact zonePath_under _ i)⟩
      rw [hf, if_neg ho] at hmem
      exact List.not_mem_nil _ hmem
    · intro ho
      have hmem : workerZoneError i ∈ List.filter
          (fun e => decide (e.Field.Under (subnetPath "workerSubnets" i)))
          (specErrs c) := by
        rw [hf, if_pos ho]
        exact List.mem_singleton_self _
      exact ⟨_, (List.mem_filter.mp hmem).1, rfl, rfl⟩
    · intro hne e he hu
      have hmem : e ∈ List.filter
          (fun e => decide (e.Field.Under (subnetPath "workerSubnets" i)))
          (specErrs c) :=
        List.mem_filter.mpr ⟨he, decide_eq_true hu⟩
      rw [hf, if_neg ((not_offending_iff s).mpr hne)] at hmem
      exact List.not_mem_nil _ hmem

/-- C5 at concrete inputs: in `manyViolations` the control-plane subnet at index 2
offends and the worker subnet at index 0 does not. -/
theorem C5_subnet_zone_rule_witness :
    (allErrs manyViolations).filter
        (fun e => decide (e.Field.Under (subnetPath "controlPlaneSubnets" 2)))
      = (if Offending { ID := some "", Zone := none } then [controlPlaneZoneError 2] else [])
    ∧ (allErrs manyViolations).filter
        (fun e => decide (e.Field.Under (subnetPath "workerSubnets" 0)))
      = (if Offending { ID := none, Zone := some "z" } then [workerZoneError 0] else []) :=
  ⟨((C5_subnet_zone_rule manyViolations _ 2 _ rfl).1 rfl).2.1,
   ((C5_subnet_zone_rule manyViolations _ 0 _ rfl).2 rfl).2.1⟩

/-- C6: the error list is the concatenation, in this order, of the reachability error
(if rule 1 fires), the load-balancer error (if rule 3 fires), the zone errors of the
offending control-plane subnets and then those of the offending worker subnets, each by
strictly ascending index and one for every offending index. -/
theorem C6_error_order (c : IBMVPCCluster) :
    allErrs c =
      (if c.Spec.ControlPlaneEndpoint.Host = "" ∧ c.Spec.ControlPlaneLoadBalancer = none
        then [reachabilityError] else [])
      ++ (match c.Spec.Network with
          | none => []
          | some n =>
            (if n.LoadBalancers = [] then [loadBalancersError] else [])
            ++ (offendingIndices n.ControlPlaneSubnets).map controlPlaneZoneError
            ++ (offendingIndices n.WorkerSubnets).map workerZoneError)
    ∧ ∀ l : List Subnet,
        (offendingIndices l).Pairwise (· < ·)
        ∧ ∀ i, i ∈ offendingIndices l ↔ ∃ s, l[i]? = some s ∧ Offending s := by
  refine ⟨?_, fun l => ⟨offendingIndices_pairwise l, mem_offendingIndices l⟩⟩
  rw [allErrs_eq_specErrs]
  unfold specErrs
  have hiff : Reachable c
      ↔ ¬ (c.Spec.ControlPlaneEndpoint.Host = "" ∧ c.Spec.ControlPlaneLoadBalancer = none) := by
    unfold Reachable
    cases c.Spec.ControlPlaneLoadBalancer <;> simp
  congr 1
  · by_cases hr : Reachable c
    · rw [if_pos hr, if_neg (hiff.mp hr)]
    · rw [if_neg hr, if_pos (not_not.mp (fun h => hr (hiff.mpr h)))]

/-- C7: the number of errors is `r + l + c + w`: `r` is 1 when the host is empty and the
control-plane load balancer absent, `l` is 1 when the network is present with an empty
`loadBalancers` list, `c` and `w` count the control-plane and worker subnets with both id
and zone empty or absent (all 0 for an absent network); Scenario A yields exactly the
root Invalid error then the `controlPlaneSubnets[0].zone` Required error, and Scenario B
exactly the `loadBalancers` Required error. -/
theorem C7_error_count :
    (∀ c : IBMVPCCluster,
      (allErrs c).length =
        (if c.Spec.ControlPlaneEndpoint.Host = "" ∧ c.Spec.ControlPlaneLoadBalancer = none
          then 1 else 0)
        + (match c.Spec.Network with
            | none => 0
            | some n =>
              (if n.LoadBalancers = [] then 1 else 0)
              + n.ControlPlaneSubnets.countP (fun s => decide (Offending s))
              + n.WorkerSubnets.countP (fun s => decide (Offending s))))
    ∧ allErrs scenarioA =
        [{ Type_ := ErrorType.ErrorTypeInvalid, Field := NewPath "", BadValue := "",
           Detail := "One of - ControlPlaneEndpoint or ControlPlaneLoadBalancer must be specified" },
         { Type_ := ErrorType.ErrorTypeRequired,
           Field := zonePath "controlPlaneSubnets" 0, BadValue := "",
           Detail := "Zone is required for each control plane subnet if ID is not provided" }]
    ∧ (allErrs scenarioA).length = 2
    ∧ allErrs scenarioB =
        [{ Type_ := ErrorType.ErrorTypeRequired, Field := loadBalancersPath, BadValue := "",
           Detail := "At least one load balancer must be specified when network is set" }]
    ∧ (allErrs scenarioB).length = 1 := by
  refine ⟨?_, by decide, by decide, by decide, by decide⟩
  intro c
  have hlen : ∀ l : List Subnet,
      (offendingIndices l).length = l.countP (fun s => decide (Offending s)) := by
    intro l
    induction l with
    | nil => rfl
    | cons s rest ih =>
      rw [offendingIndices_cons, List.countP_cons, List.length_append, List.length_map, ih]
      by_cases h : Offending s <;> simp [h, Nat.add_comm]
  have hiff : Reachable c
      ↔ ¬ (c.Spec.ControlPlaneEndpoint.Host = "" ∧ c.Spec.ControlPlaneLoadBalancer = none) := by
    unfold Reachable
    cases c.Spec.ControlPlaneLoadBalancer <;> simp
  rw [allErrs_eq_specErrs]
  unfold specErrs
  rw [List.length_append]
  congr 1
  · by_cases hr : Reachable c
    · rw [if_pos hr, if_neg (hiff.mp hr)]; rfl
    · rw [if_neg hr, if_pos (not_not.mp (fun h => hr (hiff.mpr h)))]; rfl
  · cases hn : c.Spec.Network with
    | none => rfl
    | some n =>
      rw [specNetworkErrs_some]
      simp only [List.length_append, List.length_map, hlen]
      by_cases hl : n.LoadBalancers = [] <;> simp [hl]

/-- C8: the returned error is nil exactly when the accumulated error list is empty;
when the list is non-empty the function returns one aggregate Invalid failure for group
`infrastructure.cluster.x-k8s.io`, kind `IBMVPCCluster` and the cluster name, carrying
the whole accumulated list, every entry once and in order; warnings are nil. -/
theorem C8_aggregate_failure (c : IBMVPCCluster) :
    ((validateIBMVPCCluster c).2 = none ↔ allErrs c = [])
    ∧ (allErrs c ≠ [] →
        (validateIBMVPCCluster c).2 = some (APIError.NewInvalid
          { Group := "infrastructure.cluster.x-k8s.io", Kind := "IBMVPCCluster" }
          c.Name (allErrs c)))
    ∧ (validateIBMVPCCluster c).1 = [] := by
  refine ⟨error_eq_none_iff c, ?_, ?_⟩
  · intro h
    have hl : (allErrs c).length ≠ 0 := fun hl => h (List.length_eq_zero.mp hl)
    simp [validateIBMVPCCluster, hl]
  · unfold validateIBMVPCCluster
    by_cases hl : (allErrs c).length = 0 <;> simp [hl]

/-- C8 at a concrete input: `manyViolations` yields one aggregate carrying its five
errors, in order. -/
theorem C8_aggregate_failure_witness :
    (validateIBMVPCCluster manyViolations).2 = some (APIError.NewInvalid
      { Group := "infrastructure.cluster.x-k8s.io", Kind := "IBMVPCCluster" } "c"
      [reachabilityError, loadBalancersError, controlPlaneZoneError 0,
       controlPlaneZoneError 2, workerZoneError 1]) :=
  (C8_aggregate_failure manyViolations).2.1 (by decide)

/-- C9: empty string and absent are equivalent for subnet id and zone: exchanging the
two states in the id or in the zone of the control-plane or worker subnet at any index
leaves the whole error list unchanged. -/
theorem C9_empty_absent_equivalent (c : IBMVPCCluster) (i : Nat) :
    allErrs (mapControlPlaneSubnet (fun s => { s with ID := swapEmptyAbsent s.ID }) i c)
      = allErrs c
    ∧ allErrs (mapControlPlaneSubnet (fun s => { s with Zone := swapEmptyAbsent s.Zone }) i c)
      = allErrs c
    ∧ allErrs (mapWorkerSubnet (fun s => { s with ID := swapEmptyAbsent s.ID }) i c)
      = allErrs c
    ∧ allErrs (mapWorkerSubnet (fun s => { s with Zone := swapEmptyAbsent s.Zone }) i c)
      = allErrs c := by
  have hid : ∀ s : Subnet,
      Offending { s with ID := swapEmptyAbsent s.ID } ↔ Offending s := by
    intro s
    simp [Offending, emptyOrAbsent_swap]
  have hzone : ∀ s : Subnet,
      Offending { s with Zone := swapEmptyAbsent s.Zone } ↔ Offending s := by
    intro s
    simp [Offending, emptyOrAbsent_swap]
  exact ⟨allErrs_mapControlPlaneSubnet _ hid i c, allErrs_mapControlPlaneSubnet _ hzone i c,
    allErrs_mapWorkerSubnet _ hid i c, allErrs_mapWorkerSubnet _ hzone i c⟩

/-- C10: two clusters that agree on the host, on whether the control-plane load
balancer is present, on whether the network is present, on its subnets and on whether
its `loadBalancers` list is empty, have identical error lists, whatever the contents of
the load balancers and the number of `loadBalancers` entries. -/
theorem C10_load_balancer_contents_opaque (c₁ c₂ : IBMVPCCluster)
    (hhost : c₁.Spec.ControlPlaneEndpoint.Host = c₂.Spec.ControlPlaneEndpoint.Host)
    (hlb : c₁.Spec.ControlPlaneLoadBalancer.isSome = c₂.Spec.ControlPlaneLoadBalancer.isSome)
    (hnet : AgreeOnNetwork c₁.Spec.Network c₂.Spec.Network) :
    allErrs c₁ = allErrs c₂ := by
  rw [allErrs_eq_specErrs, allErrs_eq_specErrs]
  apply specErrs_congr
  · unfold Reachable
    rw [hhost, hlb]
  · cases h1 : c₁.Spec.Network with
    | none =>
      cases h2 : c₂.Spec.Network with
      | none => rfl
      | some n₂ => simp [h1, h2, AgreeOnNetwork] at hnet
    | some n₁ =>
      cases h2 : c₂.Spec.Network with
      | none => simp [h1, h2, AgreeOnNetwork] at hnet
      | some n₂ =>
        rw [h1, h2] at hnet
        obtain ⟨hcp, hw, hl⟩ := hnet
        rw [specNetworkErrs_some, specNetworkErrs_some, hcp, hw]
        by_cases h : n₂.LoadBalancers = []
        · rw [if_pos h, if_pos (hl.mpr h)]
        · rw [if_neg h, if_neg (fun h1 => h (hl.mp h1))]

/-- C10 at concrete inputs: two clusters that differ only in their load balancers. -/
theorem C10_load_balancer_contents_opaque_witness :
    oneLoadBalancer.Spec.ControlPlaneLoadBalancer ≠ otherLoadBalancers.Spec.ControlPlaneLoadBalancer
    ∧ allErrs oneLoadBalancer = allErrs otherLoadBalancers
    ∧ allErrs oneLoadBalancer = [controlPlaneZoneError 0] :=
  ⟨by decide,
   C10_load_balancer_contents_opaque oneLoadBalancer otherLoadBalancers rfl rfl
     ⟨rfl, rfl, by decide⟩,
   by decide⟩

/-- C11, as stated, fails: for the list of one subnet with neither id nor zone, the
worker error is not the control-plane error with only the path segment exchanged, since
its message differs. -/
theorem C11_message_identical_counterexample :
    workerSubnetsLoop [{ ID := none, Zone := none }] 0 []
      ≠ (controlPlaneSubnetsLoop [{ ID := none, Zone := none }] 0 []).map renameToWorker := by
  decide

/-- C11, amended: for every subnet list `L`, the errors of the worker loop on `L` are
the errors of the control-plane loop on `L` with `workerSubnets` in place of
`controlPlaneSubnets` in each path and the worker-subnet message in place of the
control-plane-subnet message, everything else (kind, index, zone child, bad value, order)
identical; likewise for the whole error list of a network whose `workerSubnets` is `L`
against one whose `controlPlaneSubnets` is `L`. -/
theorem C11_worker_rule_mirrors_control_plane_rule (L : List Subnet) :
    workerSubnetsLoop L 0 [] = (controlPlaneSubnetsLoop L 0 []).map toWorkerError
    ∧ ∀ (host : String) (lb : Option VPCLoadBalancerSpec) (lbs : List VPCLoadBalancerSpec),
        allErrs (clusterWith host lb lbs [] L)
          = (allErrs (clusterWith host lb lbs L [])).map toWorkerError := by
  have hmap : (offendingIndices L).map (toWorkerError ∘ controlPlaneZoneError)
      = (offendingIndices L).map workerZoneError := by
    apply List.map_congr_left
    intro j _
    exact toWorkerError_controlPlaneZoneError j
  constructor
  · rw [workerSubnetsLoop_eq, controlPlaneSubnetsLoop_eq]
    simp only [Nat.zero_add, List.nil_append, List.map_map, hmap]
  · intro host lb lbs
    rw [allErrs_eq_specErrs, allErrs_eq_specErrs]
    unfold specErrs
    have hr : Reachable (clusterWith host lb lbs [] L)
        ↔ Reachable (clusterWith host lb lbs L []) := Iff.rfl
    have hn1 : (clusterWith host lb lbs [] L).Spec.Network = some
        { ControlPlaneSubnets := [], LoadBalancers := lbs, WorkerSubnets := L } := rfl
    have hn2 : (clusterWith host lb lbs L []).Spec.Network = some
        { ControlPlaneSubnets := L, LoadBalancers := lbs, WorkerSubnets := [] } := rfl
    rw [hn1, hn2, specNetworkErrs_some, specNetworkErrs_some]
    simp only [offendingIndices_nil, List.map_nil, List.append_nil, List.map_append,
      List.map_map, hmap]
    congr 1
    · by_cases h : Reachable (clusterWith host lb lbs L [])
      · rw [if_pos h, if_pos (hr.mpr h)]; rfl
      · rw [if_neg h, if_neg (fun h1 => h (hr.mp h1))]
        simp [toWorkerError_reachabilityError]
    · by_cases hl : lbs = []
      · simp [hl, toWorkerError_loadBalancersError]
      · simp [hl]

/-- C12, as stated, fails: the reachability error of Scenario A, the load-balancer error
of Scenario B and the control-plane subnet error of Scenario A do not carry the messages
the specification gives. -/
theorem C12_spec_messages_counterexample :
    (∃ e ∈ allErrs scenarioA, e.Type_ = ErrorType.ErrorTypeInvalid ∧ e.Detail
        ≠ "one of control-plane endpoint or control-plane load balancer must be specified")
    ∧ (∃ e ∈ allErrs scenarioB, e.Field = loadBalancersPath ∧ e.Detail
        ≠ "at least one load balancer must be specified when network is set")
    ∧ (∃ e ∈ allErrs scenarioA, e.Field = zonePath "controlPlaneSubnets" 0 ∧ e.Detail
        ≠ "zone is required for each control plane subnet if ID is not provided") :=
  ⟨⟨reachabilityError, by decide, rfl, by decide⟩,
   ⟨loadBalancersError, by decide, rfl, by decide⟩,
   ⟨controlPlaneZoneError 0, by decide, rfl, by decide⟩⟩

/-- C12, amended: every emitted error carries the message the code gives for its rule:
the reachability (Invalid) error "One of - ControlPlaneEndpoint or
ControlPlaneLoadBalancer must be specified", the load-balancer error "At least one load
balancer must be specified when network is set", each control-plane subnet error "Zone
is required for each control plane subnet if ID is not provided" and each worker subnet
error "Zone is required for each worker subnet if ID is not provided". -/
theorem C12_messages (c : IBMVPCCluster) (e : Error) (he : e ∈ allErrs c) :
    (e.Type_ = ErrorType.ErrorTypeInvalid → e.Detail
        = "One of - ControlPlaneEndpoint or ControlPlaneLoadBalancer must be specified")
    ∧ (e.Field = loadBalancersPath → e.Detail
        = "At least one load balancer must be specified when network is set")
    ∧ (∀ i, e.Field = zonePath "controlPlaneSubnets" i → e.Detail
        = "Zone is required for each control plane subnet if ID is not provided")
    ∧ (∀ i, e.Field = zonePath "workerSubnets" i → e.Detail
        = "Zone is required for each worker subnet if ID is not provided") := by
  rw [allErrs_eq_specErrs] at he
  rcases mem_specErrs_cases c e he with rfl | rfl | ⟨j, rfl⟩ | ⟨j, rfl⟩
  · refine ⟨fun _ => rfl, fun h => ?_, fun i h => ?_, fun i h => ?_⟩
    · exact absurd h (by decide)
    · simp [reachabilityError, zonePath] at h
    · simp [reachabilityError, zonePath] at h
  · refine ⟨fun h => ?_, fun _ => rfl, fun i h => ?_, fun i h => ?_⟩
    · exact absurd h (by decide)
    · simp [loadBalancersError, loadBalancersPath, zonePath] at h
    · simp [loadBalancersError, loadBalancersPath, zonePath] at h
  · refine ⟨fun h => ?_, fun h => ?_, fun _ _ => rfl, fun i h => ?_⟩
    · simp [controlPlaneZoneError] at h
    · simp [controlPlaneZoneError, loadBalancersPath, zonePath] at h
    · simp [controlPlaneZoneError, zonePath] at h
  · refine ⟨fun h => ?_, fun h => ?_, fun i h => ?_, fun _ _ => rfl⟩
    · simp [workerZoneError] at h
    · simp [workerZoneError, loadBalancersPath, zonePath] at h
    · simp [workerZoneError, zonePath] at h

/-- C12 at a concrete input: the messages of the five errors of `manyViolations`. -/
theorem C12_messages_witness :
    reachabilityError ∈ allErrs manyViolations
    ∧ reachabilityError.Detail
        = "One of - ControlPlaneEndpoint or ControlPlaneLoadBalancer must be specified"
    ∧ (allErrs manyViolations).map (fun e => e.Detail) =
        ["One of - ControlPlaneEndpoint or ControlPlaneLoadBalancer must be specified",
         "At least one load balancer must be specified when network is set",
         "Zone is required for each control plane subnet if ID is not provided",
         "Zone is required for each control plane subnet if ID is not provided",
         "Zone is required for each worker subnet if ID is not provided"] :=
  ⟨by decide, (C12_messages manyViolations reachabilityError (by decide)).1 rfl, by decide⟩

/-- C13: the validator is total and never panics: on every cluster the run with
explicit failures (each read through the `network` pointer and each `*subnet.ID`,
`*subnet.Zone` a dereference that fails on nil, each loop step a slice access that fails
out of range) ends with a result, never with a panic, and the result is the one of
`validateIBMVPCCluster`; the dereference in `p == nil || *p == ""` never fails, and
every index below the length of a slice is read successfully. -/
theorem C13_total_never_panics (c : IBMVPCCluster) :
    validateIBMVPCClusterChecked c = Except.ok (validateIBMVPCCluster c)
    ∧ (∀ msg, validateIBMVPCClusterChecked c ≠ Except.error msg)
    ∧ (∀ s : Subnet, ∃ b, subnetTestChecked s = Except.ok b)
    ∧ (∀ (l : List Subnet) (acc : ErrorList),
        (∃ r, controlPlaneSubnetsLoopChecked l l.length 0 acc = Except.ok r)
        ∧ (∃ r, workerSubnetsLoopChecked l l.length 0 acc = Except.ok r)) := by
  refine ⟨validateIBMVPCClusterChecked_eq c, ?_, ?_, ?_⟩
  · intro msg h
    rw [validateIBMVPCClusterChecked_eq] at h
    exact Except.noConfusion h
  · intro s
    exact ⟨_, subnetTestChecked_eq s⟩
  · intro l acc
    exact ⟨⟨_, controlPlaneSubnetsLoopChecked_full l acc⟩,
      ⟨_, workerSubnetsLoopChecked_full l acc⟩⟩

/-- C14: for every object that is not an IBMVPCCluster, `ValidateCreate` and
`ValidateUpdate` (with it as the new object) return a bad-request error and no aggregate
Invalid failure; for every object that is an IBMVPCCluster they never return a
bad-request error. -/
theorem C14_bad_request_iff_wrong_type (old : Object) :
    (∀ goType : String,
      (∃ reason, ValidateCreate (Object.other goType)
          = ([], some (APIError.NewBadRequest reason)))
      ∧ (∃ reason, ValidateUpdate old (Object.other goType)
          = ([], some (APIError.NewBadRequest reason)))
      ∧ (∀ gk name errs, (ValidateCreate (Object.other goType)).2
          ≠ some (APIError.NewInvalid gk name errs))
      ∧ (∀ gk name errs, (ValidateUpdate old (Object.other goType)).2
          ≠ some (APIError.NewInvalid gk name errs)))
    ∧ (∀ (c : IBMVPCCluster) (reason : String),
      (ValidateCreate (Object.ibmvpcCluster c)).2 ≠ some (APIError.NewBadRequest reason)
      ∧ (ValidateUpdate old (Object.ibmvpcCluster c)).2
          ≠ some (APIError.NewBadRequest reason)) := by
  have hv : ∀ (c : IBMVPCCluster) (reason : String),
      (validateIBMVPCCluster c).2 ≠ some (APIError.NewBadRequest reason) := by
    intro c reason
    unfold validateIBMVPCCluster
    by_cases hl : (allErrs c).length = 0 <;> simp [hl]
  constructor
  · intro goType
    refine ⟨⟨_, rfl⟩, ⟨_, rfl⟩, ?_, ?_⟩
    · intro gk name errs h
      simp [ValidateCreate] at h
    · intro gk name errs h
      simp [ValidateUpdate] at h
  · intro c reason
    exact ⟨hv c reason, hv c reason⟩

/-- C15: delete-time validation and defaulting pass through unconditionally: for every
object `ValidateDelete` returns no warnings and no error and `Default` returns no error
and leaves the object unchanged, also for a cluster that fails create validation
(Scenario A) and for an object that is not an IBMVPCCluster. -/
theorem C15_delete_and_default_pass_through (obj : Object) :
    ValidateDelete obj = ([], none)
    ∧ Default obj = (obj, none)
    ∧ (ValidateCreate (Object.ibmvpcCluster scenarioA)).2 ≠ none
    ∧ ValidateDelete (Object.ibmvpcCluster scenarioA) = ([], none)
    ∧ Default (Object.ibmvpcCluster scenarioA) = (Object.ibmvpcCluster scenarioA, none)
    ∧ ValidateDelete (Object.other "*v1.Pod") = ([], none)
    ∧ Default (Object.other "*v1.Pod") = (Object.other "*v1.Pod", none) :=
  ⟨rfl, rfl, by decide, rfl, rfl, rfl, rfl⟩

/-- C16: validation is deterministic and idempotent, and does not modify its input: run
on any store, the validator leaves the cluster object as it found it, its result is the
one `validateIBMVPCCluster` computes from that object alone, a second call on the store
the first call left yields the identical result (same error entries, same order) and
again leaves the object unchanged, and any two stores holding the same object yield
identical results whatever else they hold. -/
theorem C16_deterministic_idempotent (σ : Store) :
    (validateIBMVPCClusterStore σ).2.object = σ.object
    ∧ (validateIBMVPCClusterStore σ).1 = validateIBMVPCCluster σ.object
    ∧ (validateIBMVPCClusterStore (validateIBMVPCClusterStore σ).2).1
        = (validateIBMVPCClusterStore σ).1
    ∧ (validateIBMVPCClusterStore (validateIBMVPCClusterStore σ).2).2.object = σ.object
    ∧ (∀ τ : Store, τ.object = σ.object →
        (validateIBMVPCClusterStore τ).1 = (validateIBMVPCClusterStore σ).1) := by
  refine ⟨?_, ?_, ?_, ?_, ?_⟩
  · rw [validateIBMVPCClusterStore_eq]
  · rw [validateIBMVPCClusterStore_eq]
  · rw [validateIBMVPCClusterStore_eq σ, validateIBMVPCClusterStore_eq]
  · rw [validateIBMVPCClusterStore_eq σ, validateIBMVPCClusterStore_eq]
  · intro τ h
    rw [validateIBMVPCClusterStore_eq, validateIBMVPCClusterStore_eq, h]

/-- C16 at concrete inputs: a store still holding an error of an earlier call and a
fresh store on the same object yield the same aggregate of five errors, and the call
leaves the object unchanged. -/
theorem C16_deterministic_idempotent_witness :
    usedStore.object = freshStore.object
    ∧ (validateIBMVPCClusterStore usedStore).1 = (validateIBMVPCClusterStore freshStore).1
    ∧ (validateIBMVPCClusterStore freshStore).2.object = manyViolations
    ∧ (validateIBMVPCClusterStore freshStore).1.2 = some (APIError.NewInvalid
        { Group := "infrastructure.cluster.x-k8s.io", Kind := "IBMVPCCluster" } "c"
        [reachabilityError, loadBalancersError, controlPlaneZoneError 0,
         controlPlaneZoneError 2, workerZoneError 1]) :=
  ⟨rfl, (C16_deterministic_idempotent freshStore).2.2.2.2 usedStore rfl,
   (C16_deterministic_idempotent freshStore).1, by decide⟩

/-- C17: update validation depends only on the new object: for every old object and
every new object that is an IBMVPCCluster, `ValidateUpdate` returns exactly what
`ValidateCreate` returns on the new object, which is exactly what `ValidateIBMVPCCluster`
returns; the warnings of both entry points are nil on every object. -/
theorem C17_update_is_create (old : Object) (c : IBMVPCCluster) :
    ValidateUpdate old (Object.ibmvpcCluster c) = ValidateCreate (Object.ibmvpcCluster c)
    ∧ ValidateCreate (Object.ibmvpcCluster c) = ValidateIBMVPCCluster c
    ∧ (∀ new : Object, (ValidateUpdate old new).1 = [] ∧ (ValidateCreate new).1 = []) := by
  have hw : ∀ c : IBMVPCCluster, (validateIBMVPCCluster c).1 = [] := by
    intro c
    unfold validateIBMVPCCluster
    by_cases hl : (allErrs c).length = 0 <;> simp [hl]
  refine ⟨rfl, rfl, ?_⟩
  intro new
  cases new with
  | ibmvpcCluster c1 => exact ⟨hw c1, hw c1⟩
  | other goType => exact ⟨rfl, rfl⟩

/-- C18, the code at a failing input: for a new object of type `*v1.Pod`,
`ValidateUpdate` reports the type `*v1beta2.IBMVPCCluster` (the type of the nil result of
the failed type assertion), not the type of the object it received, whereas
`ValidateCreate` reports `*v1.Pod`; the two messages differ. -/
theorem C18_update_message_names_asserted_type :
    (ValidateUpdate (Object.other "*v1.Pod") (Object.other "*v1.Pod")).2
      = some (APIError.NewBadRequest
          "expected a IBMVPCCluster but got a *v1beta2.IBMVPCCluster")
    ∧ (ValidateCreate (Object.other "*v1.Pod")).2
      = some (APIError.NewBadRequest "expected a IBMVPCCluster but got a *v1.Pod")
    ∧ (ValidateUpdate (Object.other "*v1.Pod") (Object.other "*v1.Pod")).2
      ≠ (ValidateCreate (Object.other "*v1.Pod")).2 := by
  decide

end Webhooks
